import Mathlib

/-!
Shallow embedding of the Go authentication server (main.go, with the
login variant from auth.go). The user store `map[string]*User` is modelled
as a list of `User` records keyed by their `id` field; iterating the Go map
corresponds to traversing the list, and the unspecified map iteration order
corresponds to the choice of list order. The bcrypt credential hasher is an
external library capability and is modelled as a `Hasher` bundle carrying
its contract (hash succeeds implies verify succeeds and the hash differs
from the plaintext, both asserted by the repository's own tests). Random id
generation and the current time are passed in as explicit arguments.
-/

namespace AuthServer

/-- User record (main.go `User`). The `password` field stores the bcrypt
hash; its Go JSON tag is `json:"-"`, so it is dropped on serialization. -/
structure User where
  id : String
  username : String
  email : String
  password : String
  created : Nat
deriving DecidableEq, Repr

/-- The JSON serialization of a `User` per its struct tags: `password`
carries the tag `json:"-"` and is omitted; the other four fields appear. -/
structure UserJSON where
  id : String
  username : String
  email : String
  created : Nat
deriving DecidableEq, Repr

/-- Serialize a user according to the Go struct tags on `User`. -/
def User.toJSON (u : User) : UserJSON :=
  { id := u.id, username := u.username, email := u.email, created := u.created }

/-- main.go `RegisterRequest`. -/
structure RegisterRequest where
  username : String
  email : String
  password : String
deriving DecidableEq, Repr

/-- main.go `LoginRequest`. -/
structure LoginRequest where
  username : String
  password : String
deriving DecidableEq, Repr

/-- main.go `ChangePasswordRequest`. -/
structure ChangePasswordRequest where
  currentPassword : String
  newPassword : String
deriving DecidableEq, Repr

/-- The `data` part of a JSON response: registration sends
`map[string]string{"username": ...}`, login and profile send a serialized
user. -/
inductive Payload where
  | usernameOnly (username : String)
  | userView (u : UserJSON)
deriving DecidableEq, Repr

/-- main.go `Response`: the uniform JSON envelope. -/
structure Response where
  success : Bool
  message : String
  data : Option Payload
deriving DecidableEq, Repr

/-- An HTTP response body: either the plain text written by `http.Error`
or a JSON-encoded `Response` envelope. -/
inductive Body where
  | errText (msg : String)
  | json (r : Response)
deriving DecidableEq, Repr

/-- An HTTP result: numeric status code plus body. -/
structure HttpResult where
  status : Nat
  body : Body
deriving DecidableEq, Repr

/-- The external credential hasher (bcrypt). `hash` models
`hashPassword` / `bcrypt.GenerateFromPassword` (which can fail, hence
`Option`); `check` models `checkPassword` /
`bcrypt.CompareHashAndPassword` applied as `check password hash`. The two
contract fields record the library guarantees the repository itself relies
on and tests (TestHashPassword, TestCheckPassword): a produced hash
verifies against its password, and a produced hash is never the plaintext
password. -/
structure Hasher where
  hash : String → Option String
  check : String → String → Bool
  hash_check : ∀ p h, hash p = some h → check p h = true
  hash_ne : ∀ p h, hash p = some h → h ≠ p

/-- A concrete hasher instance used to witness theorems: it tags the
password with a fixed prefix. It satisfies the `Hasher` contract. -/
def tagHasher : Hasher where
  hash p := some ("$2a$" ++ p)
  check p h := h == "$2a$" ++ p
  hash_check := by
    intro p h hh
    simp only [Option.some.injEq] at hh
    simp [← hh]
  hash_ne := by
    intro p h hh hne
    simp only [Option.some.injEq] at hh
    have hl : ("$2a$" ++ p).length = p.length := by rw [hh, hne]
    rw [String.length_append] at hl
    have h4 : "$2a$".length = 4 := by decide
    omega

/-- Go map assignment `users[u.id] = u` on the list model: if a record
with that id exists it is replaced in place, otherwise the record is
appended. -/
def mapInsert (users : List User) (u : User) : List User :=
  if users.any (fun v => v.id == u.id) then
    users.map (fun v => if v.id == u.id then u else v)
  else
    users ++ [u]

/-- The duplicate-detection loop of registerHandler (main.go lines
127-139): iterate over the stored users; for each record first compare
usernames, then emails, with exact string equality; the first collision
found decides the conflict response. Returns `none` when no record
collides. -/
def dupCheck : List User → RegisterRequest → Option HttpResult
  | [], _ => none
  | u :: rest, req =>
    if u.username == req.username then
      some ⟨409, .errText "Username already exists"⟩
    else if u.email == req.email then
      some ⟨409, .errText "Email already exists"⟩
    else
      dupCheck rest req

/-- Outcome of a handler call: HTTP result, user store after the call, and
the user id written into a freshly created session (when one is). -/
structure HandlerOutcome where
  http : HttpResult
  users : List User
  session : Option String
deriving DecidableEq, Repr

/-- registerHandler (main.go): validate non-empty fields, validate
password length (Go `len` counts bytes), run the duplicate loop, hash the
password, insert the new user keyed by the freshly generated id. The
generated id and creation time are explicit arguments (`fid`, `now`).
Registration never creates a session. -/
def registerHandler (hasher : Hasher) (fid : String) (now : Nat)
    (users : List User) (req : RegisterRequest) : HandlerOutcome :=
  if req.username == "" || req.email == "" || req.password == "" then
    ⟨⟨400, .errText "Username, email, and password are required"⟩, users, none⟩
  else if req.password.utf8ByteSize < 6 then
    ⟨⟨400, .errText "Password must be at least 6 characters long"⟩, users, none⟩
  else
    match dupCheck users req with
    | some conflict => ⟨conflict, users, none⟩
    | none =>
      match hasher.hash req.password with
      | none => ⟨⟨500, .errText "Error processing password"⟩, users, none⟩
      | some hashedPassword =>
        let user : User :=
          { id := fid, username := req.username, email := req.email
            password := hashedPassword, created := now }
        ⟨⟨201, .json ⟨true,
            "User registered successfully. Please login with your credentials.",
            some (.usernameOnly user.username)⟩⟩,
          mapInsert users user, none⟩

/-- loginHandler (main.go): validate non-empty fields, find the user by
username (first match in iteration order), verify the password, and on
success create a session holding the user's id and return the serialized
user (password dropped by its JSON tag). Both failure causes — user not
found and wrong password — answer 401 with the same plain-text message. -/
def loginHandler (hasher : Hasher) (users : List User)
    (req : LoginRequest) : HandlerOutcome :=
  if req.username == "" || req.password == "" then
    ⟨⟨400, .errText "Username and password are required"⟩, users, none⟩
  else
    match users.find? (fun u => u.username == req.username) with
    | none => ⟨⟨401, .errText "Invalid username or password"⟩, users, none⟩
    | some user =>
      if !(hasher.check req.password user.password) then
        ⟨⟨401, .errText "Invalid username or password"⟩, users, none⟩
      else
        ⟨⟨200, .json ⟨true, "Login successful", some (.userView user.toJSON)⟩⟩,
          users, some user.id⟩

/-- LoginHandler of the auth.go variant: no empty-field validation, JSON
envelope failures with message "Invalid credentials" for both failure
causes, success returns an explicitly rebuilt user view without the
password field. -/
def authLoginHandler (hasher : Hasher) (users : List User)
    (req : LoginRequest) : HandlerOutcome :=
  match users.find? (fun u => u.username == req.username) with
  | none => ⟨⟨401, .json ⟨false, "Invalid credentials", none⟩⟩, users, none⟩
  | some user =>
    if !(hasher.check req.password user.password) then
      ⟨⟨401, .json ⟨false, "Invalid credentials", none⟩⟩, users, none⟩
    else
      ⟨⟨200, .json ⟨true, "Login successful", some (.userView user.toJSON)⟩⟩,
        users, some user.id⟩

/-- profileHandler (main.go): require a session with a non-empty user id,
look the user up by id (Go map indexing), serialize the user on success. -/
def profileHandler (users : List User) (sess : Option String) : HttpResult :=
  match sess with
  | none => ⟨401, .errText "Not authenticated"⟩
  | some userID =>
    if userID == "" then
      ⟨401, .errText "Not authenticated"⟩
    else
      match users.find? (fun u => u.id == userID) with
      | none => ⟨404, .errText "User not found"⟩
      | some user =>
        ⟨200, .json ⟨true, "Profile retrieved successfully",
          some (.userView user.toJSON)⟩⟩

/-- changePasswordHandler (main.go): require a session, validate the
request, look the user up by the session's id, verify the current
password, hash the new password and overwrite the stored record's
password field in place (the store holds pointers, so the update mutates
only that record). The session itself is not touched. -/
def changePasswordHandler (hasher : Hasher) (users : List User)
    (sess : Option String) (req : ChangePasswordRequest) :
    HttpResult × List User :=
  match sess with
  | none => (⟨401, .errText "Not authenticated"⟩, users)
  | some userID =>
    if userID == "" then
      (⟨401, .errText "Not authenticated"⟩, users)
    else if req.currentPassword == "" || req.newPassword == "" then
      (⟨400, .errText "Current password and new password are required"⟩, users)
    else if req.newPassword.utf8ByteSize < 6 then
      (⟨400, .errText "New password must be at least 6 characters long"⟩, users)
    else
      match users.find? (fun u => u.id == userID) with
      | none => (⟨404, .errText "User not found"⟩, users)
      | some user =>
        if !(hasher.check req.currentPassword user.password) then
          (⟨401, .errText "Current password is incorrect"⟩, users)
        else
          match hasher.hash req.newPassword with
          | none => (⟨500, .errText "Error processing new password"⟩, users)
          | some hashedPassword =>
            (⟨200, .json ⟨true, "Password changed successfully", none⟩⟩,
              users.map (fun u =>
                if u.id == userID then { u with password := hashedPassword } else u))

/-- Strings occurring in a response payload: the registered username, or
the serialized public user fields. The numeric `created` timestamp is not
a string. -/
def Payload.strings : Payload → List String
  | .usernameOnly s => [s]
  | .userView j => [j.id, j.username, j.email]

/-- Strings occurring in a JSON envelope. -/
def Response.strings (r : Response) : List String :=
  r.message :: (match r.data with | none => [] | some p => p.strings)

/-- Strings occurring in a response body. -/
def Body.strings : Body → List String
  | .errText m => [m]
  | .json r => r.strings

/-- Every fixed message literal any of the four handlers can emit
(main.go). -/
def serverMessages : List String :=
  ["Username, email, and password are required",
   "Password must be at least 6 characters long",
   "Username already exists",
   "Email already exists",
   "Error processing password",
   "User registered successfully. Please login with your credentials.",
   "Username and password are required",
   "Invalid username or password",
   "Login successful",
   "Not authenticated",
   "User not found",
   "Profile retrieved successfully",
   "Current password and new password are required",
   "New password must be at least 6 characters long",
   "Current password is incorrect",
   "Error processing new password",
   "Password changed successfully"]

/-- Abstract steps a handler performs, used to model the lock discipline
of main.go: `lock`/`unlock` are `s.mutex.Lock()` and the deferred
`s.mutex.Unlock()`, `rlock`/`runlock` the read-lock variants. -/
inductive Step where
  | validate
  | lock
  | rlock
  | checkDup
  | findUser
  | verifyCurrent
  | hashNew
  | insertUser
  | updateUser
  | respond
  | unlock
  | runlock
deriving DecidableEq, BEq, Repr

/-- The statement order of registerHandler's success path (main.go lines
108-173): validate, `s.mutex.Lock()` (with deferred unlock), the
duplicate loop, `hashPassword`, the map insert, the response write, and
the deferred unlock on return. -/
def registerTrace : List Step :=
  [.validate, .lock, .checkDup, .hashNew, .insertUser, .respond, .unlock]

/-- The statement order of changePasswordHandler's success path (main.go
lines 322-381): session check and validation, `s.mutex.Lock()` (with
deferred unlock), user lookup, current-password verification,
`hashPassword` of the new password, the password-field update, the
response write, and the deferred unlock. -/
def changePasswordTrace : List Step :=
  [.validate, .lock, .findUser, .verifyCurrent, .hashNew, .updateUser, .respond, .unlock]

/-- The statement order of loginHandler's success path (main.go lines
176-260): validation, `s.mutex.RLock()`, user lookup, password
verification, response, deferred read-unlock. -/
def loginTrace : List Step :=
  [.validate, .rlock, .findUser, .verifyCurrent, .respond, .runlock]

/-- A step lies inside the exclusive critical section of a trace: it
occurs strictly after `lock` and strictly before `unlock`. -/
def inCriticalSection (t : List Step) (s : Step) : Bool :=
  t.indexOf Step.lock < t.indexOf s && t.indexOf s < t.indexOf Step.unlock

/-- The discipline the claim asserts for hashing: the hash step occurs
strictly before the write lock is taken. -/
def hashedBeforeLock (t : List Step) : Bool :=
  t.indexOf Step.hashNew < t.indexOf Step.lock

/-- Two strings agree after mapping every character to lower case — they
differ at most in letter case. -/
def eqUpToCase (s t : String) : Bool :=
  s.data.map Char.toLower == t.data.map Char.toLower

/-- The characters of a string with surrounding whitespace removed. -/
def trimChars (s : String) : List Char :=
  ((s.data.dropWhile Char.isWhitespace).reverse.dropWhile Char.isWhitespace).reverse

/-- Two strings agree once surrounding whitespace is removed. -/
def eqUpToOuterSpace (s t : String) : Bool :=
  trimChars s == trimChars t

/-- Concrete stored user for witnesses (password field holds the
`tagHasher` hash of "secret1"). -/
def alice : User :=
  { id := "id-alice", username := "alice", email := "a@x.com"
    password := "$2a$secret1", created := 0 }

/-- Second concrete stored user for witnesses. -/
def bob : User :=
  { id := "id-bob", username := "bob", email := "b@x.com"
    password := "$2a$secret2", created := 0 }

/-- When no stored record matches the request's username or email, the
duplicate loop reports no conflict. -/
theorem dupCheck_eq_none (users : List User) (req : RegisterRequest)
    (h : users.find? (fun u => u.username == req.username || u.email == req.email) = none) :
    dupCheck users req = none := by
  induction users with
  | nil => rfl
  | cons u rest ih =>
    rw [List.find?_cons] at h
    by_cases h1 : (u.username == req.username) = true
    · simp [h1] at h
    · by_cases h2 : (u.email == req.email) = true
      · simp [h1, h2] at h
      · rw [Bool.not_eq_true] at h1 h2
        simp only [h1, h2, Bool.or_self] at h
        simp only [dupCheck, h1, h2, Bool.false_eq_true, if_false]
        exact ih h

/-- The duplicate loop reports the conflict of the first stored record
that matches the request on username or email, and within that record the
username comparison comes first. -/
theorem dupCheck_eq_some (users : List User) (req : RegisterRequest) (w : User)
    (h : users.find? (fun u => u.username == req.username || u.email == req.email) = some w) :
    dupCheck users req =
      some (if w.username = req.username then ⟨409, Body.errText "Username already exists"⟩
            else ⟨409, Body.errText "Email already exists"⟩) := by
  induction users with
  | nil => simp at h
  | cons u rest ih =>
    rw [List.find?_cons] at h
    by_cases h1 : (u.username == req.username) = true
    · simp only [h1, Bool.true_or] at h
      obtain rfl : u = w := by simpa using h
      have h1' : u.username = req.username := by simpa using h1
      simp [dupCheck, h1, h1']
    · by_cases h2 : (u.email == req.email) = true
      · rw [Bool.not_eq_true] at h1
        simp only [h1, h2, Bool.false_or] at h
        obtain rfl : u = w := by simpa using h
        have h1' : ¬ u.username = req.username := by simpa using h1
        simp [dupCheck, h1, h2, h1']
      · rw [Bool.not_eq_true] at h1 h2
        simp only [h1, h2, Bool.or_self] at h
        simp only [dupCheck, h1, h2, Bool.false_eq_true, if_false]
        exact ih h

/-- Any conflict the duplicate loop reports carries status 409. -/
theorem dupCheck_status (users : List User) (req : RegisterRequest) (r : HttpResult)
    (h : dupCheck users req = some r) : r.status = 409 := by
  cases hf : users.find? (fun u => u.username == req.username || u.email == req.email) with
  | none => rw [dupCheck_eq_none users req hf] at h; cases h
  | some w =>
    rw [dupCheck_eq_some users req w hf] at h
    obtain rfl : _ = r := by simpa using h
    split <;> rfl

/-- Inserting a record whose id is absent from the store appends it. -/
theorem mapInsert_eq_append (users : List User) (u : User)
    (h : ∀ v ∈ users, v.id ≠ u.id) :
    mapInsert users u = users ++ [u] := by
  unfold mapInsert
  have hany : users.any (fun v => v.id == u.id) = false := by
    rw [List.any_eq_false]
    intro v hv
    simpa using h v hv
  simp [hany]

/-- Every record of the store after a map assignment is either an
untouched old record or the assigned record. -/
theorem mem_mapInsert (users : List User) (u v : User)
    (h : v ∈ mapInsert users u) : v ∈ users ∨ v = u := by
  unfold mapInsert at h
  split at h
  · rw [List.mem_map] at h
    obtain ⟨w, hw, hwv⟩ := h
    by_cases hid : (w.id == u.id) = true
    · right
      rw [← hwv]
      simp [hid]
    · left
      rw [Bool.not_eq_true] at hid
      rw [← hwv]
      simpa [hid] using hw
  · rw [List.mem_append] at h
    rcases h with h | h
    · exact Or.inl h
    · exact Or.inr (by simpa using h)

/-- Searching a mapped store with a predicate the mapping preserves is
searching the original store and mapping the result. -/
theorem find?_map_pres (users : List User) (f : User → User) (p : User → Bool)
    (hp : ∀ u, p (f u) = p u) :
    (users.map f).find? p = (users.find? p).map f := by
  rw [List.find?_map]
  have hpf : (p ∘ f) = p := funext fun u => by simp [Function.comp, hp]
  rw [hpf]

/-- C1: for every login request with non-empty fields, the outcome when no
user has the requested username and the outcome when a user exists but the
password does not verify are identical: both answer 401 with the same
generic message and create no session, in the main.go handler (plain-text
"Invalid username or password") and in the auth.go variant (JSON envelope
with success=false and "Invalid credentials") alike, so the two failure
causes are indistinguishable to the caller. -/
theorem login_failure_indistinguishable (hasher : Hasher)
    (users1 users2 : List User) (req1 req2 : LoginRequest) (u : User)
    (hu1 : req1.username ≠ "") (hp1 : req1.password ≠ "")
    (hu2 : req2.username ≠ "") (hp2 : req2.password ≠ "")
    (hA : users1.find? (fun v => v.username == req1.username) = none)
    (hB : users2.find? (fun v => v.username == req2.username) = some u)
    (hBc : hasher.check req2.password u.password = false) :
    (loginHandler hasher users1 req1).http =
      ⟨401, .errText "Invalid username or password"⟩ ∧
    (loginHandler hasher users2 req2).http =
      ⟨401, .errText "Invalid username or password"⟩ ∧
    (loginHandler hasher users1 req1).session = none ∧
    (loginHandler hasher users2 req2).session = none ∧
    (authLoginHandler hasher users1 req1).http =
      ⟨401, .json ⟨false, "Invalid credentials", none⟩⟩ ∧
    (authLoginHandler hasher users2 req2).http =
      ⟨401, .json ⟨false, "Invalid credentials", none⟩⟩ := by
  refine ⟨?_, ?_, ?_, ?_, ?_, ?_⟩ <;>
    simp [loginHandler, authLoginHandler, hA, hB, hBc, hu1, hp1, hu2, hp2]

/-- C1 witness: a store holding only alice, probed with an unknown
username and with alice's username plus a wrong password. -/
theorem login_failure_indistinguishable_witness :
    (loginHandler tagHasher [alice] ⟨"nobody", "x12345"⟩).http =
      ⟨401, .errText "Invalid username or password"⟩ ∧
    (loginHandler tagHasher [alice] ⟨"alice", "wrong66"⟩).http =
      ⟨401, .errText "Invalid username or password"⟩ ∧
    (loginHandler tagHasher [alice] ⟨"nobody", "x12345"⟩).session = none ∧
    (loginHandler tagHasher [alice] ⟨"alice", "wrong66"⟩).session = none ∧
    (authLoginHandler tagHasher [alice] ⟨"nobody", "x12345"⟩).http =
      ⟨401, .json ⟨false, "Invalid credentials", none⟩⟩ ∧
    (authLoginHandler tagHasher [alice] ⟨"alice", "wrong66"⟩).http =
      ⟨401, .json ⟨false, "Invalid credentials", none⟩⟩ :=
  login_failure_indistinguishable tagHasher [alice] [alice]
    ⟨"nobody", "x12345"⟩ ⟨"alice", "wrong66"⟩ alice
    (by decide) (by decide) (by decide) (by decide)
    (by decide) (by decide) (by decide)

/-- C3: a registration whose username, email, or password is empty, or
whose password is shorter than 6 bytes, fails with status 400 and leaves
the user store unchanged. -/
theorem register_validation_rejects (hasher : Hasher) (fid : String) (now : Nat)
    (users : List User) (req : RegisterRequest)
    (h : req.username = "" ∨ req.email = "" ∨ req.password = "" ∨
      req.password.utf8ByteSize < 6) :
    (registerHandler hasher fid now users req).http.status = 400 ∧
    (registerHandler hasher fid now users req).users = users := by
  by_cases h1 : (req.username == "" || req.email == "" || req.password == "") = true
  · constructor <;> simp [registerHandler, h1]
  · have h4 : req.password.utf8ByteSize < 6 := by
      rcases h with h | h | h | h
      · simp [h] at h1
      · simp [h] at h1
      · simp [h] at h1
      · exact h
    constructor <;> simp [registerHandler, h1, h4]

/-- C3 witness: a 3-byte password is rejected and the store keeps only its
prior record. -/
theorem register_validation_rejects_witness :
    (registerHandler tagHasher "id-w" 0 [alice] ⟨"u", "e@x.com", "abc"⟩).http.status = 400 ∧
    (registerHandler tagHasher "id-w" 0 [alice] ⟨"u", "e@x.com", "abc"⟩).users = [alice] :=
  register_validation_rejects tagHasher "id-w" 0 [alice] ⟨"u", "e@x.com", "abc"⟩
    (by decide)

/-- C9 counterexample: the claim that the expensive hashing is performed
before taking the store's write lock is false for both mutating handlers
of main.go: in registerHandler and changePasswordHandler the hash step
lies strictly inside the exclusive critical section. -/
theorem hashing_inside_lock_counterexample :
    hashedBeforeLock registerTrace = false ∧
    hashedBeforeLock changePasswordTrace = false ∧
    inCriticalSection registerTrace Step.hashNew = true ∧
    inCriticalSection changePasswordTrace Step.hashNew = true := by decide

/-- C9 amended: each mutating handler runs its whole check-then-mutate
sequence (duplicate check then insert; lookup and current-password
verification then update) inside the single coarse store lock, so those
sequences are mutually atomic under mutex semantics; the read-only login
lookup runs under the read lock; but the password hashing is also
performed inside the exclusive critical section, not before the lock. -/
theorem lock_discipline :
    inCriticalSection registerTrace Step.checkDup = true ∧
    inCriticalSection registerTrace Step.insertUser = true ∧
    inCriticalSection registerTrace Step.hashNew = true ∧
    inCriticalSection changePasswordTrace Step.findUser = true ∧
    inCriticalSection changePasswordTrace Step.verifyCurrent = true ∧
    inCriticalSection changePasswordTrace Step.updateUser = true ∧
    inCriticalSection changePasswordTrace Step.hashNew = true ∧
    loginTrace.indexOf Step.rlock < loginTrace.indexOf Step.findUser ∧
    loginTrace.indexOf Step.findUser < loginTrace.indexOf Step.runlock := by decide

/-- C4 counterexample: the outcome is not a deterministic function of the
set of stored users, and a username collision does not always win. The
stores [alice, bob] and [bob, alice] hold the same records (one is the
reverse of the other), the request reuses bob's username and alice's
email, some stored user carries the requested username — yet one iteration
order reports the email conflict and the other the username conflict. -/
theorem register_dup_order_counterexample :
    ([bob, alice] : List User) = ([alice, bob] : List User).reverse ∧
    ([alice, bob] : List User).any (fun u => u.username == "bob") = true ∧
    (registerHandler tagHasher "id-new" 3 [alice, bob]
      ⟨"bob", "a@x.com", "secret9"⟩).http =
      ⟨409, .errText "Email already exists"⟩ ∧
    (registerHandler tagHasher "id-new" 3 [bob, alice]
      ⟨"bob", "a@x.com", "secret9"⟩).http =
      ⟨409, .errText "Username already exists"⟩ := by decide

/-- C4 amended: the duplicate check scans the stored records in iteration
order and, within each record, compares the username before the email; the
conflict reported is decided by the first record that collides on either
field (DuplicateUsername when that record's username matches — in
particular whenever a single record collides on both fields —
DuplicateEmail otherwise), the response status is 409, and the store is
unchanged; the outcome is a deterministic function of the request and the
sequence of stored users, not of their set. -/
theorem register_dup_first_collision (hasher : Hasher) (fid : String) (now : Nat)
    (users : List User) (req : RegisterRequest) (w : User)
    (h1 : req.username ≠ "") (h2 : req.email ≠ "") (h3 : req.password ≠ "")
    (h4 : ¬ req.password.utf8ByteSize < 6)
    (hw : users.find? (fun u => u.username == req.username || u.email == req.email) =
      some w) :
    (registerHandler hasher fid now users req).http =
      (if w.username = req.username then ⟨409, Body.errText "Username already exists"⟩
       else ⟨409, Body.errText "Email already exists"⟩) ∧
    (registerHandler hasher fid now users req).users = users := by
  have hd := dupCheck_eq_some users req w hw
  constructor <;> simp [registerHandler, h1, h2, h3, h4, hd]

/-- C4 amended-claim witness: a store whose sole record collides with the
request on both username and email reports the username conflict. -/
theorem register_dup_first_collision_witness :
    (registerHandler tagHasher "id-new" 3 [alice]
      ⟨"alice", "a@x.com", "secret9"⟩).http =
      (if alice.username = "alice" then ⟨409, Body.errText "Username already exists"⟩
       else ⟨409, Body.errText "Email already exists"⟩) ∧
    (registerHandler tagHasher "id-new" 3 [alice]
      ⟨"alice", "a@x.com", "secret9"⟩).users = [alice] :=
  register_dup_first_collision tagHasher "id-new" 3 [alice]
    ⟨"alice", "a@x.com", "secret9"⟩ alice
    (by decide) (by decide) (by decide) (by decide) (by decide)

/-- C8 counterexample: registration does not defend against a
generated-id collision. With alice in the store and the freshly generated
id equal to alice's id, the registration is accepted with status 201 and
the map assignment replaces alice's record, so an existing user record is
destroyed. -/
theorem register_id_collision_counterexample :
    (registerHandler tagHasher "id-alice" 5 [alice]
      ⟨"carol", "c@x.com", "secret9"⟩).http.status = 201 ∧
    (registerHandler tagHasher "id-alice" 5 [alice]
      ⟨"carol", "c@x.com", "secret9"⟩).users =
      [⟨"id-alice", "carol", "c@x.com", "$2a$secret9", 5⟩] ∧
    ¬ ∃ u ∈ (registerHandler tagHasher "id-alice" 5 [alice]
      ⟨"carol", "c@x.com", "secret9"⟩).users, u.username = "alice" := by decide

/-- C8 amended: no operation removes a user record, and as long as the
freshly generated id does not already occur in the store, a successful
registration appends exactly one new record and leaves every existing
record untouched, while a failed registration leaves the store unchanged;
the collision defense the claim describes does not exist — when the
generated id already occurs, the map assignment overwrites that record. -/
theorem register_fresh_id_appends (hasher : Hasher) (fid : String) (now : Nat)
    (users : List User) (req : RegisterRequest)
    (hfresh : ∀ u ∈ users, u.id ≠ fid) :
    ((registerHandler hasher fid now users req).http.status = 201 →
      ∃ nh, hasher.hash req.password = some nh ∧
        (registerHandler hasher fid now users req).users =
          users ++ [⟨fid, req.username, req.email, nh, now⟩]) ∧
    ((registerHandler hasher fid now users req).http.status ≠ 201 →
      (registerHandler hasher fid now users req).users = users) := by
  unfold registerHandler
  split
  · exact ⟨fun h => by simp at h, fun _ => rfl⟩
  · split
    · exact ⟨fun h => by simp at h, fun _ => rfl⟩
    · split
      · next r hr =>
        refine ⟨fun h => ?_, fun _ => rfl⟩
        have := dupCheck_status users req r hr
        simp at h
        omega
      · split
        · exact ⟨fun h => by simp at h, fun _ => rfl⟩
        · next nh hnh =>
          refine ⟨fun _ => ⟨nh, hnh, ?_⟩, fun h => absurd rfl h⟩
          exact mapInsert_eq_append users _ hfresh

/-- C8 amended-claim witness: registering carol with a fresh id over a
store holding alice appends carol's record and keeps alice's. -/
theorem register_fresh_id_appends_witness :
    ((registerHandler tagHasher "id-carol" 5 [alice]
      ⟨"carol", "c@x.com", "secret9"⟩).http.status = 201 →
      ∃ nh, tagHasher.hash "secret9" = some nh ∧
        (registerHandler tagHasher "id-carol" 5 [alice]
          ⟨"carol", "c@x.com", "secret9"⟩).users =
          [alice] ++ [⟨"id-carol", "carol", "c@x.com", nh, 5⟩]) ∧
    ((registerHandler tagHasher "id-carol" 5 [alice]
      ⟨"carol", "c@x.com", "secret9"⟩).http.status ≠ 201 →
      (registerHandler tagHasher "id-carol" 5 [alice]
        ⟨"carol", "c@x.com", "secret9"⟩).users = [alice]) :=
  register_fresh_id_appends tagHasher "id-carol" 5 [alice]
    ⟨"carol", "c@x.com", "secret9"⟩ (by decide)

/-- C5: a valid, non-conflicting registration whose hash succeeds answers
the created status 201 with a JSON payload holding only the new user's
username — no id, email, hash, or session data — and creates no session. -/
theorem register_success_response (hasher : Hasher) (fid : String) (now : Nat)
    (users : List User) (req : RegisterRequest) (nh : String)
    (h1 : req.username ≠ "") (h2 : req.email ≠ "") (h3 : req.password ≠ "")
    (h4 : ¬ req.password.utf8ByteSize < 6)
    (hnodup : users.find?
      (fun u => u.username == req.username || u.email == req.email) = none)
    (hh : hasher.hash req.password = some nh) :
    (registerHandler hasher fid now users req).http =
      ⟨201, .json ⟨true,
        "User registered successfully. Please login with your credentials.",
        some (.usernameOnly req.username)⟩⟩ ∧
    (registerHandler hasher fid now users req).session = none := by
  have hd := dupCheck_eq_none users req hnodup
  constructor <;> simp [registerHandler, h1, h2, h3, h4, hd, hh]

/-- C5 witness: carol registers against a store holding alice. -/
theorem register_success_response_witness :
    (registerHandler tagHasher "id-carol" 7 [alice]
      ⟨"carol", "c@x.com", "secret9"⟩).http =
      ⟨201, .json ⟨true,
        "User registered successfully. Please login with your credentials.",
        some (.usernameOnly "carol")⟩⟩ ∧
    (registerHandler tagHasher "id-carol" 7 [alice]
      ⟨"carol", "c@x.com", "secret9"⟩).session = none :=
  register_success_response tagHasher "id-carol" 7 [alice]
    ⟨"carol", "c@x.com", "secret9"⟩ "$2a$secret9"
    (by decide) (by decide) (by decide) (by decide) (by decide) (by decide)

/-- Updating the password of the record with a given id relates the old
and new stores pointwise: identity fields are preserved everywhere and
records with a different id are fully unchanged. -/
theorem forall₂_passwordUpdate (users : List User) (uid nh : String) :
    List.Forall₂ (fun u u' =>
        u'.id = u.id ∧ u'.username = u.username ∧ u'.email = u.email ∧
        u'.created = u.created ∧ (u.id ≠ uid → u' = u))
      users
      (users.map (fun u => if u.id == uid then { u with password := nh } else u)) := by
  induction users with
  | nil => exact List.Forall₂.nil
  | cons u rest ih =>
    rw [List.map_cons]
    refine List.Forall₂.cons ?_ ih
    by_cases hid : (u.id == uid) = true
    · have h' : u.id = uid := by simpa using hid
      simp [hid, h']
    · rw [Bool.not_eq_true] at hid
      simp [hid]

/-- profileHandler with a non-empty session id whose lookup succeeds
serializes the found user. -/
theorem profileHandler_found (users : List User) (uid : String) (user : User)
    (hne : uid ≠ "")
    (hf : users.find? (fun u => u.id == uid) = some user) :
    profileHandler users (some uid) =
      ⟨200, .json ⟨true, "Profile retrieved successfully",
        some (.userView user.toJSON)⟩⟩ := by
  simp [profileHandler, hne, hf]

/-- loginHandler when the username lookup succeeds and the password
verifies: 200, serialized user, session on the user's id. -/
theorem loginHandler_found_ok (hasher : Hasher) (users : List User)
    (req : LoginRequest) (user : User)
    (hu : req.username ≠ "") (hp : req.password ≠ "")
    (hf : users.find? (fun v => v.username == req.username) = some user)
    (hc : hasher.check req.password user.password = true) :
    loginHandler hasher users req =
      ⟨⟨200, .json ⟨true, "Login successful", some (.userView user.toJSON)⟩⟩,
        users, some user.id⟩ := by
  simp [loginHandler, hu, hp, hf, hc]

/-- loginHandler when the username lookup succeeds but the password does
not verify: the generic 401 failure, no session. -/
theorem loginHandler_found_bad (hasher : Hasher) (users : List User)
    (req : LoginRequest) (user : User)
    (hu : req.username ≠ "") (hp : req.password ≠ "")
    (hf : users.find? (fun v => v.username == req.username) = some user)
    (hc : hasher.check req.password user.password = false) :
    loginHandler hasher users req =
      ⟨⟨401, .errText "Invalid username or password"⟩, users, none⟩ := by
  simp [loginHandler, hu, hp, hf, hc]

/-- C6: a successful change-password mutates only the password field of
the session's user: the store after the call matches the store before it
pointwise, with identical id, username, email and creation time
everywhere, every record other than the session's user fully unchanged,
and the same session still yields a successful profile response (no
forced re-login). -/
theorem changePassword_frame (hasher : Hasher) (users : List User)
    (uid : String) (req : ChangePasswordRequest) (user : User) (nh : String)
    (hne : uid ≠ "")
    (hc1 : req.currentPassword ≠ "") (hc2 : req.newPassword ≠ "")
    (hlen : ¬ req.newPassword.utf8ByteSize < 6)
    (hfind : users.find? (fun u => u.id == uid) = some user)
    (hcheck : hasher.check req.currentPassword user.password = true)
    (hh : hasher.hash req.newPassword = some nh) :
    (changePasswordHandler hasher users (some uid) req).1 =
      ⟨200, .json ⟨true, "Password changed successfully", none⟩⟩ ∧
    List.Forall₂ (fun u u' =>
        u'.id = u.id ∧ u'.username = u.username ∧ u'.email = u.email ∧
        u'.created = u.created ∧ (u.id ≠ uid → u' = u))
      users (changePasswordHandler hasher users (some uid) req).2 ∧
    (profileHandler (changePasswordHandler hasher users (some uid) req).2
      (some uid)).status = 200 := by
  have hres : changePasswordHandler hasher users (some uid) req =
      (⟨200, .json ⟨true, "Password changed successfully", none⟩⟩,
        users.map (fun u => if u.id == uid then { u with password := nh } else u)) := by
    simp [changePasswordHandler, hne, hc1, hc2, hlen, hfind, hcheck, hh]
  rw [hres]
  refine ⟨rfl, forall₂_passwordUpdate users uid nh, ?_⟩
  have hp : ∀ u : User,
      ((if u.id == uid then { u with password := nh } else u).id == uid) =
        (u.id == uid) := by
    intro u
    by_cases hid : (u.id == uid) = true
    · simp [hid]
    · rw [Bool.not_eq_true] at hid
      simp [hid]
  have hfind' : (users.map
      (fun u => if u.id == uid then { u with password := nh } else u)).find?
      (fun u => u.id == uid) =
      some (if user.id == uid then { user with password := nh } else user) := by
    rw [find?_map_pres users _ _ hp, hfind]
    rfl
  rw [profileHandler_found _ uid _ hne hfind']

/-- C6 witness: alice changes her password in a store holding alice and
bob; bob's record and alice's identity fields survive, and alice's
session still retrieves her profile. -/
theorem changePassword_frame_witness :
    (changePasswordHandler tagHasher [alice, bob] (some "id-alice")
      ⟨"secret1", "newpass7"⟩).1 =
      ⟨200, .json ⟨true, "Password changed successfully", none⟩⟩ ∧
    List.Forall₂ (fun u u' =>
        u'.id = u.id ∧ u'.username = u.username ∧ u'.email = u.email ∧
        u'.created = u.created ∧ (u.id ≠ "id-alice" → u' = u))
      [alice, bob]
      (changePasswordHandler tagHasher [alice, bob] (some "id-alice")
        ⟨"secret1", "newpass7"⟩).2 ∧
    (profileHandler (changePasswordHandler tagHasher [alice, bob] (some "id-alice")
      ⟨"secret1", "newpass7"⟩).2 (some "id-alice")).status = 200 :=
  changePassword_frame tagHasher [alice, bob] "id-alice"
    ⟨"secret1", "newpass7"⟩ alice "$2a$newpass7"
    (by decide) (by decide) (by decide) (by decide) (by decide) (by decide)
    (by decide)

/-- C7: after a successful change of the session user's password from the
old password to a new password of at least 6 bytes, logging in with that
username and the new password succeeds, and logging in with the old
password fails with the generic invalid-credentials 401 (given that the
old password does not verify against the new hash). -/
theorem changePassword_then_login (hasher : Hasher) (users : List User)
    (uid oldP newP : String) (user : User) (nh : String)
    (hne : uid ≠ "") (ho : oldP ≠ "") (hn : newP ≠ "")
    (hlen : ¬ newP.utf8ByteSize < 6)
    (huname : user.username ≠ "")
    (hfind : users.find? (fun u => u.id == uid) = some user)
    (hfindName : users.find? (fun u => u.username == user.username) = some user)
    (hcheckOld : hasher.check oldP user.password = true)
    (hh : hasher.hash newP = some nh)
    (hdiff : hasher.check oldP nh = false) :
    (changePasswordHandler hasher users (some uid) ⟨oldP, newP⟩).1.status = 200 ∧
    (loginHandler hasher
      (changePasswordHandler hasher users (some uid) ⟨oldP, newP⟩).2
      ⟨user.username, newP⟩).http.status = 200 ∧
    (loginHandler hasher
      (changePasswordHandler hasher users (some uid) ⟨oldP, newP⟩).2
      ⟨user.username, oldP⟩).http =
      ⟨401, .errText "Invalid username or password"⟩ := by
  have hres : changePasswordHandler hasher users (some uid) ⟨oldP, newP⟩ =
      (⟨200, .json ⟨true, "Password changed successfully", none⟩⟩,
        users.map (fun u => if u.id == uid then { u with password := nh } else u)) := by
    simp [changePasswordHandler, hne, ho, hn, hlen, hfind, hcheckOld, hh]
  have hp : ∀ u : User,
      ((if u.id == uid then { u with password := nh } else u).username ==
        user.username) = (u.username == user.username) := by
    intro u
    by_cases hid : (u.id == uid) = true
    · simp [hid]
    · rw [Bool.not_eq_true] at hid
      simp [hid]
  have hiduid := List.find?_some hfind
  have hfuser : (if user.id == uid then { user with password := nh } else user) =
      { user with password := nh } := by
    rw [if_pos hiduid]
  have hfindName' : (users.map
      (fun u => if u.id == uid then { u with password := nh } else u)).find?
      (fun v => v.username == user.username) = some { user with password := nh } := by
    rw [find?_map_pres users _ _ hp, hfindName, Option.map_some', hfuser]
  have hchecknew : hasher.check newP nh = true := hasher.hash_check newP nh hh
  rw [hres]
  refine ⟨rfl, ?_, ?_⟩
  · rw [loginHandler_found_ok hasher _ ⟨user.username, newP⟩ _ huname hn
      hfindName' hchecknew]
  · rw [loginHandler_found_bad hasher _ ⟨user.username, oldP⟩ _ huname ho
      hfindName' hdiff]

/-- C7 witness: alice changes secret1 to newpass7, then logs in with
newpass7 (success) and with secret1 (generic 401). -/
theorem changePassword_then_login_witness :
    (changePasswordHandler tagHasher [alice, bob] (some "id-alice")
      ⟨"secret1", "newpass7"⟩).1.status = 200 ∧
    (loginHandler tagHasher
      (changePasswordHandler tagHasher [alice, bob] (some "id-alice")
        ⟨"secret1", "newpass7"⟩).2
      ⟨alice.username, "newpass7"⟩).http.status = 200 ∧
    (loginHandler tagHasher
      (changePasswordHandler tagHasher [alice, bob] (some "id-alice")
        ⟨"secret1", "newpass7"⟩).2
      ⟨alice.username, "secret1"⟩).http =
      ⟨401, .errText "Invalid username or password"⟩ :=
  changePassword_then_login tagHasher [alice, bob] "id-alice"
    "secret1" "newpass7" alice "$2a$newpass7"
    (by decide) (by decide) (by decide) (by decide) (by decide) (by decide)
    (by decide) (by decide) (by decide) (by decide)

/-- C10: duplicate detection compares usernames and emails by exact,
byte-for-byte string equality, with no case folding or trimming: two
otherwise valid registrations whose usernames differ and whose emails
differ as strings — even when the emails agree up to letter case or up to
surrounding whitespace, or the usernames agree up to letter case — both
succeed, and the store afterwards holds two distinct new records. -/
theorem register_exact_string_equality (hasher : Hasher) (users : List User)
    (fid1 fid2 : String) (now1 now2 : Nat) (r1 r2 : RegisterRequest)
    (nh1 nh2 : String)
    (hu1 : r1.username ≠ "") (he1 : r1.email ≠ "") (hp1 : r1.password ≠ "")
    (hl1 : ¬ r1.password.utf8ByteSize < 6)
    (hu2 : r2.username ≠ "") (he2 : r2.email ≠ "") (hp2 : r2.password ≠ "")
    (hl2 : ¬ r2.password.utf8ByteSize < 6)
    (husername : r1.username ≠ r2.username)
    (hemail : r1.email ≠ r2.email)
    (_hvariant : eqUpToCase r1.email r2.email = true ∨
      eqUpToOuterSpace r1.email r2.email = true ∨
      eqUpToCase r1.username r2.username = true)
    (hnc1 : users.find?
      (fun u => u.username == r1.username || u.email == r1.email) = none)
    (hnc2 : users.find?
      (fun u => u.username == r2.username || u.email == r2.email) = none)
    (hh1 : hasher.hash r1.password = some nh1)
    (hh2 : hasher.hash r2.password = some nh2)
    (hf1 : ∀ u ∈ users, u.id ≠ fid1) (hf2 : ∀ u ∈ users, u.id ≠ fid2)
    (hfid : fid1 ≠ fid2) :
    (registerHandler hasher fid1 now1 users r1).http.status = 201 ∧
    (registerHandler hasher fid2 now2
      (registerHandler hasher fid1 now1 users r1).users r2).http.status = 201 ∧
    (registerHandler hasher fid2 now2
      (registerHandler hasher fid1 now1 users r1).users r2).users =
      users ++ [⟨fid1, r1.username, r1.email, nh1, now1⟩,
                ⟨fid2, r2.username, r2.email, nh2, now2⟩] ∧
    (⟨fid1, r1.username, r1.email, nh1, now1⟩ : User) ≠
      ⟨fid2, r2.username, r2.email, nh2, now2⟩ := by
  have hd1 := dupCheck_eq_none users r1 hnc1
  have happ1 : mapInsert users ⟨fid1, r1.username, r1.email, nh1, now1⟩ =
      users ++ [⟨fid1, r1.username, r1.email, nh1, now1⟩] :=
    mapInsert_eq_append users _ hf1
  have hres1 : (registerHandler hasher fid1 now1 users r1).users =
      users ++ [⟨fid1, r1.username, r1.email, nh1, now1⟩] := by
    simp [registerHandler, hu1, he1, hp1, hl1, hd1, hh1, happ1]
  have hnc2' : List.find? (fun u => u.username == r2.username || u.email == r2.email)
      (users ++ [(⟨fid1, r1.username, r1.email, nh1, now1⟩ : User)]) = none := by
    rw [List.find?_append, hnc2]
    have hfalse : ((⟨fid1, r1.username, r1.email, nh1, now1⟩ : User).username == r2.username ||
        (⟨fid1, r1.username, r1.email, nh1, now1⟩ : User).email == r2.email) = false := by
      simp [husername, hemail]
    simp [List.find?_cons, hfalse]
  have hd2 := dupCheck_eq_none _ r2 hnc2'
  have hf2' : ∀ u ∈ users ++ [(⟨fid1, r1.username, r1.email, nh1, now1⟩ : User)],
      u.id ≠ fid2 := by
    intro u hu
    rcases List.mem_append.mp hu with h | h
    · exact hf2 u h
    · obtain rfl : u = (⟨fid1, r1.username, r1.email, nh1, now1⟩ : User) := by
        simpa using h
      simpa using hfid
  have happ2 := mapInsert_eq_append
    (users ++ [(⟨fid1, r1.username, r1.email, nh1, now1⟩ : User)])
    (⟨fid2, r2.username, r2.email, nh2, now2⟩ : User) hf2'
  refine ⟨?_, ?_, ?_, ?_⟩
  · simp [registerHandler, hu1, he1, hp1, hl1, hd1, hh1]
  · rw [hres1]
    simp [registerHandler, hu2, he2, hp2, hl2, hd2, hh2]
  · rw [hres1]
    have : (registerHandler hasher fid2 now2
        (users ++ [⟨fid1, r1.username, r1.email, nh1, now1⟩]) r2).users =
        (users ++ [⟨fid1, r1.username, r1.email, nh1, now1⟩]) ++
          [⟨fid2, r2.username, r2.email, nh2, now2⟩] := by
      simp [registerHandler, hu2, he2, hp2, hl2, hd2, hh2, happ2]
    rw [this, List.append_assoc]
    rfl
  · intro hcontra
    exact husername (congrArg User.username hcontra)

/-- C10 witness: two registrations with usernames "Dana"/"dana" and
emails "D@x.com"/"d@x.com" — equal after lowercasing, unequal as byte
strings — both succeed against a store holding alice, and two distinct
records are appended. -/
theorem register_exact_string_equality_witness :
    (registerHandler tagHasher "id-d1" 1 [alice]
      ⟨"Dana", "D@x.com", "secret3"⟩).http.status = 201 ∧
    (registerHandler tagHasher "id-d2" 2
      (registerHandler tagHasher "id-d1" 1 [alice]
        ⟨"Dana", "D@x.com", "secret3"⟩).users
      ⟨"dana", "d@x.com", "secret4"⟩).http.status = 201 ∧
    (registerHandler tagHasher "id-d2" 2
      (registerHandler tagHasher "id-d1" 1 [alice]
        ⟨"Dana", "D@x.com", "secret3"⟩).users
      ⟨"dana", "d@x.com", "secret4"⟩).users =
      [alice] ++ [⟨"id-d1", "Dana", "D@x.com", "$2a$secret3", 1⟩,
                  ⟨"id-d2", "dana", "d@x.com", "$2a$secret4", 2⟩] ∧
    (⟨"id-d1", "Dana", "D@x.com", "$2a$secret3", 1⟩ : User) ≠
      ⟨"id-d2", "dana", "d@x.com", "$2a$secret4", 2⟩ :=
  register_exact_string_equality tagHasher [alice] "id-d1" "id-d2" 1 2
    ⟨"Dana", "D@x.com", "secret3"⟩ ⟨"dana", "d@x.com", "secret4"⟩
    "$2a$secret3" "$2a$secret4"
    (by decide) (by decide) (by decide) (by decide)
    (by decide) (by decide) (by decide) (by decide)
    (by decide) (by decide) (by decide)
    (by decide) (by decide) (by decide) (by decide)
    (by decide) (by decide) (by decide)

/-- Any conflict body the duplicate loop reports is one of its two fixed
message literals. -/
theorem dupCheck_body (users : List User) (req : RegisterRequest) (r : HttpResult)
    (h : dupCheck users req = some r) :
    r.body = Body.errText "Username already exists" ∨
    r.body = Body.errText "Email already exists" := by
  cases hf : users.find? (fun u => u.username == req.username || u.email == req.email) with
  | none => rw [dupCheck_eq_none users req hf] at h; cases h
  | some w =>
    rw [dupCheck_eq_some users req w hf] at h
    have he := Option.some.inj h
    subst he
    split <;> simp

/-- Every string a registration response can carry is a fixed server
message or the requested username. -/
theorem registerBody_strings (hasher : Hasher) (fid : String) (now : Nat)
    (users : List User) (req : RegisterRequest) :
    ∀ s ∈ (registerHandler hasher fid now users req).http.body.strings,
      s ∈ serverMessages ∨ s = req.username := by
  unfold registerHandler
  split
  · intro s hs
    simp only [Body.strings, List.mem_singleton] at hs
    subst hs
    exact Or.inl (by decide)
  · split
    · intro s hs
      simp only [Body.strings, List.mem_singleton] at hs
      subst hs
      exact Or.inl (by decide)
    · split
      · next r hr =>
        intro s hs
        have hsb : s ∈ r.body.strings := hs
        rcases dupCheck_body users req r hr with hb | hb <;>
          · rw [hb] at hsb
            simp only [Body.strings, List.mem_singleton] at hsb
            subst hsb
            exact Or.inl (by decide)
      · split
        · intro s hs
          simp only [Body.strings, List.mem_singleton] at hs
          subst hs
          exact Or.inl (by decide)
        · intro s hs
          simp only [Body.strings, Response.strings, Payload.strings,
            List.mem_cons, List.mem_singleton, List.not_mem_nil, or_false] at hs
          rcases hs with hs | hs
          · subst hs
            exact Or.inl (by decide)
          · exact Or.inr hs

/-- Every string a login response can carry is a fixed server message or a
public field (id, username, email) of a stored user. -/
theorem loginBody_strings (hasher : Hasher) (users : List User) (req : LoginRequest) :
    ∀ s ∈ (loginHandler hasher users req).http.body.strings,
      s ∈ serverMessages ∨ ∃ u ∈ users, s = u.id ∨ s = u.username ∨ s = u.email := by
  unfold loginHandler
  split
  · intro s hs
    simp only [Body.strings, List.mem_singleton] at hs
    subst hs
    exact Or.inl (by decide)
  · split
    · intro s hs
      simp only [Body.strings, List.mem_singleton] at hs
      subst hs
      exact Or.inl (by decide)
    · next user hfind =>
      split
      · intro s hs
        simp only [Body.strings, List.mem_singleton] at hs
        subst hs
        exact Or.inl (by decide)
      · intro s hs
        simp only [Body.strings, Response.strings, Payload.strings, User.toJSON,
          List.mem_cons, List.not_mem_nil, or_false] at hs
        rcases hs with hs | hs
        · subst hs
          exact Or.inl (by decide)
        · exact Or.inr ⟨user, List.mem_of_find?_eq_some hfind, hs⟩

/-- Every string a profile response can carry is a fixed server message or
a public field of a stored user. -/
theorem profileBody_strings (users : List User) (sess : Option String) :
    ∀ s ∈ (profileHandler users sess).body.strings,
      s ∈ serverMessages ∨ ∃ u ∈ users, s = u.id ∨ s = u.username ∨ s = u.email := by
  unfold profileHandler
  split
  · intro s hs
    simp only [Body.strings, List.mem_singleton] at hs
    subst hs
    exact Or.inl (by decide)
  · split
    · intro s hs
      simp only [Body.strings, List.mem_singleton] at hs
      subst hs
      exact Or.inl (by decide)
    · split
      · intro s hs
        simp only [Body.strings, List.mem_singleton] at hs
        subst hs
        exact Or.inl (by decide)
      · next user hfind =>
        intro s hs
        simp only [Body.strings, Response.strings, Payload.strings, User.toJSON,
          List.mem_cons, List.not_mem_nil, or_false] at hs
        rcases hs with hs | hs
        · subst hs
          exact Or.inl (by decide)
        · exact Or.inr ⟨user, List.mem_of_find?_eq_some hfind, hs⟩

/-- Every string a change-password response can carry is a fixed server
message. -/
theorem changePasswordBody_strings (hasher : Hasher) (users : List User)
    (sess : Option String) (req : ChangePasswordRequest) :
    ∀ s ∈ (changePasswordHandler hasher users sess req).1.body.strings,
      s ∈ serverMessages := by
  unfold changePasswordHandler
  split
  · intro s hs
    simp only [Body.strings, List.mem_singleton] at hs
    subst hs
    decide
  · split
    · intro s hs
      simp only [Body.strings, List.mem_singleton] at hs
      subst hs
      decide
    · split
      · intro s hs
        simp only [Body.strings, List.mem_singleton] at hs
        subst hs
        decide
      · split
        · intro s hs
          simp only [Body.strings, List.mem_singleton] at hs
          subst hs
          decide
        · split
          · intro s hs
            simp only [Body.strings, List.mem_singleton] at hs
            subst hs
            decide
          · split
            · intro s hs
              simp only [Body.strings, List.mem_singleton] at hs
              subst hs
              decide
            · split
              · intro s hs
                simp only [Body.strings, List.mem_singleton] at hs
                subst hs
                decide
              · intro s hs
                simp only [Body.strings, Response.strings,
                  List.mem_cons, List.not_mem_nil, or_false] at hs
                subst hs
                decide

/-- C2: responses are built exclusively from fixed message literals, the
registered username, and the public fields (id, username, email) of
stored users — any string distinct from all of those, in particular a
stored password hash or a plaintext password, appears in no response of
register, login, profile, or change-password; and every user record a
registration adds to the store carries a stored hash different from the
request's plaintext password. -/
theorem credentials_never_serialized (hasher : Hasher) (fid : String) (now : Nat)
    (users : List User) (regReq : RegisterRequest) (loginReq : LoginRequest)
    (cpReq : ChangePasswordRequest) (sess : Option String) (x : String)
    (hmsg : x ∉ serverMessages)
    (hreg : x ≠ regReq.username)
    (hpub : ∀ u ∈ users, x ≠ u.id ∧ x ≠ u.username ∧ x ≠ u.email) :
    x ∉ (registerHandler hasher fid now users regReq).http.body.strings ∧
    x ∉ (loginHandler hasher users loginReq).http.body.strings ∧
    x ∉ (profileHandler users sess).body.strings ∧
    x ∉ (changePasswordHandler hasher users sess cpReq).1.body.strings ∧
    ∀ u ∈ (registerHandler hasher fid now users regReq).users,
      u ∈ users ∨ u.password ≠ regReq.password := by
  refine ⟨?_, ?_, ?_, ?_, ?_⟩
  · intro hx
    rcases registerBody_strings hasher fid now users regReq x hx with h | h
    · exact hmsg h
    · exact hreg h
  · intro hx
    rcases loginBody_strings hasher users loginReq x hx with h | ⟨u, hu, h⟩
    · exact hmsg h
    · rcases hpub u hu with ⟨h1, h2, h3⟩
      rcases h with h | h | h
      exacts [h1 h, h2 h, h3 h]
  · intro hx
    rcases profileBody_strings users sess x hx with h | ⟨u, hu, h⟩
    · exact hmsg h
    · rcases hpub u hu with ⟨h1, h2, h3⟩
      rcases h with h | h | h
      exacts [h1 h, h2 h, h3 h]
  · intro hx
    exact hmsg (changePasswordBody_strings hasher users sess cpReq x hx)
  · intro u hu
    unfold registerHandler at hu
    split at hu
    · exact Or.inl hu
    · split at hu
      · exact Or.inl hu
      · split at hu
        · exact Or.inl hu
        · split at hu
          · exact Or.inl hu
          · next nh hnh =>
            rcases mem_mapInsert users _ u hu with h | h
            · exact Or.inl h
            · right
              rw [h]
              exact hasher.hash_ne regReq.password nh hnh

/-- C2 witness: alice's stored bcrypt hash — distinct as a string from
every public field, every fixed message, and the new username — appears in
no response of any of the four operations, and the record carol's
registration adds stores a hash different from her plaintext password. -/
theorem credentials_never_serialized_witness :
    "$2a$secret1" ∉ (registerHandler tagHasher "id-carol" 7 [alice]
      ⟨"carol", "c@x.com", "secret9"⟩).http.body.strings ∧
    "$2a$secret1" ∉ (loginHandler tagHasher [alice]
      ⟨"alice", "secret1"⟩).http.body.strings ∧
    "$2a$secret1" ∉ (profileHandler [alice] (some "id-alice")).body.strings ∧
    "$2a$secret1" ∉ (changePasswordHandler tagHasher [alice] (some "id-alice")
      ⟨"secret1", "newpass7"⟩).1.body.strings ∧
    ∀ u ∈ (registerHandler tagHasher "id-carol" 7 [alice]
      ⟨"carol", "c@x.com", "secret9"⟩).users,
      u ∈ [alice] ∨ u.password ≠ "secret9" :=
  credentials_never_serialized tagHasher "id-carol" 7 [alice]
    ⟨"carol", "c@x.com", "secret9"⟩ ⟨"alice", "secret1"⟩ ⟨"secret1", "newpass7"⟩
    (some "id-alice") "$2a$secret1"
    (by decide) (by decide) (by decide)

end AuthServer
